import Mathlib

/-!
# Verification of `xshell`'s `src/env.rs`

A shallow embedding of the scoped global-state guards of `xshell`:
`Pushd` (working-directory guard), `Pushenv` (environment-variable guard)
and `GlobalShellLock` (process-wide mutex plus a thread-local reentrancy
flag `LOCKED`).

The OS primitives used by the code (`cwd()`, `std::env::set_current_dir`,
`std::env::var_os`, `std::env::set_var`, `std::env::remove_var`) are
external collaborators; they are modelled as operations on an explicit
`World` state:

* the current working directory is a `Path` (an abstract string);
* the environment is a function `String → Option String`;
* `cwd()` is fallible: the world carries an oracle `readFailAt` telling,
  per call index (`reads` counts the calls made so far), whether that read
  of the working directory fails;
* `set_current_dir` is driven by a resolution oracle
  `res : Path → Path → Option Path`: given the current directory and the
  requested path, the OS either refuses (`none`) or moves to the canonical
  resolved directory (`some c`) — this models the OS normalising paths,
  symlinks and relative components, so the directory actually entered need
  not textually equal the requested one;
* Rust panics (`unwrap`, `assert_eq!`) in the destructors are modelled as
  an `Except Panic` error channel: a `Panic` value is a process-fatal
  outcome, not a recoverable error.

The single-thread lock model also records an event trace (`LockEvent`) so
that ordering properties of lock release (flag reset before mutex release)
are expressible.  A separate multi-thread transition system (`MT`)
models the process-wide mutex and per-thread flags for the cross-thread
exclusion property.
-/

namespace XShell

/-- Abstract filesystem path, as handed around by the code (`PathBuf`). -/
abbrev Path := String

/-- Thread-local lock state visible to one thread:
`locked` is the thread-local `LOCKED` flag, `mutexHeld` records whether
this thread currently holds the process-wide `MUTEX`. -/
structure LockState where
  locked : Bool
  mutexHeld : Bool
deriving DecidableEq

/-- Micro-events performed by lock acquisition and release, used to state
ordering properties (the flag reset happens while the mutex is still
held) and blocking properties (`acquireMutex` is the only potentially
blocking operation). -/
inductive LockEvent where
  | readFlag : LockEvent
  | acquireMutex : LockEvent
  | setFlag : Bool → LockEvent
  | releaseMutex : LockEvent
deriving DecidableEq

/-- Effect of one lock micro-event on the thread's lock state. -/
def LockEvent.apply : LockEvent → LockState → LockState
  | .readFlag, s => s
  | .acquireMutex, s => { s with mutexHeld := true }
  | .setFlag b, s => { s with locked := b }
  | .releaseMutex, s => { s with mutexHeld := false }

/-- The lock token (`struct GlobalShellLock { guard: Option<MutexGuard> }`).
`guard = true` models `Some(..)`: this acquisition newly took the mutex
and owes its release; `guard = false` models `None`: it rode on an
existing same-thread session and owns nothing. -/
structure GlobalShellLock where
  guard : Bool
deriving DecidableEq

/-- `GlobalShellLock::lock()` as seen from one thread.  If the thread-local
`LOCKED` flag is already set, return a token owning nothing, having done
nothing but read the flag.  Otherwise acquire the mutex (the one
potentially blocking event), set the flag and return an owning token.
Returns the token, the new thread lock state, and the event trace. -/
def GlobalShellLock.lock (s : LockState) : GlobalShellLock × LockState × List LockEvent :=
  if s.locked then
    (⟨false⟩, s, [LockEvent.readFlag])
  else
    (⟨true⟩, ⟨true, true⟩,
      [LockEvent.readFlag, LockEvent.acquireMutex, LockEvent.setFlag true])

/-- `Drop for GlobalShellLock`: if the token owns the mutex hold, the drop
body resets `LOCKED` to `false`; afterwards Rust drops the `guard` field,
which releases the mutex.  A token owning nothing does neither.
Returns the new lock state and the event trace. -/
def GlobalShellLock.drop (g : GlobalShellLock) (s : LockState) : LockState × List LockEvent :=
  if g.guard then
    (⟨false, false⟩, [LockEvent.setFlag false, LockEvent.releaseMutex])
  else
    (s, [])

/-- The process state a single thread observes: working directory,
environment, the `cwd()` failure oracle with its call counter, and the
thread's lock state. -/
structure World where
  cwd : Path
  env : String → Option String
  readFailAt : Nat → Bool
  reads : Nat
  lock : LockState

/-- The collaborator `cwd()`: read the current working directory.  The
oracle decides whether this (the `reads`-th) call fails; either way the
call counter advances. -/
def cwdOp (w : World) : Except Unit Path × World :=
  if w.readFailAt w.reads then
    (Except.error (), { w with reads := w.reads + 1 })
  else
    (Except.ok w.cwd, { w with reads := w.reads + 1 })

/-- `set_current_dir` (the wrapper around `std::env::set_current_dir`):
ask the OS to enter `path` from `w.cwd`; on refusal report a filesystem
error and leave the world untouched, on success the working directory
becomes the canonical resolved directory. -/
def set_current_dir (res : Path → Path → Option Path) (path : Path) (w : World) :
    Except Unit Unit × World :=
  match res w.cwd path with
  | none => (Except.error (), w)
  | some c => (Except.ok (), { w with cwd := c })

/-- `std::env::var_os`: read an environment variable (absent vs present). -/
def var_os (k : String) (w : World) : Option String :=
  w.env k

/-- `std::env::set_var`: set an environment variable; always succeeds. -/
def set_var (k v : String) (w : World) : World :=
  { w with env := fun q => if q = k then some v else w.env q }

/-- `std::env::remove_var`: remove an environment variable; always
succeeds, idempotent if already absent. -/
def remove_var (k : String) (w : World) : World :=
  { w with env := fun q => if q = k then none else w.env q }

/-- Acquire the global lock from within a guard constructor: apply
`GlobalShellLock.lock` to the world's thread lock state. -/
def lockWorld (w : World) : GlobalShellLock × World :=
  ((GlobalShellLock.lock w.lock).1, { w with lock := (GlobalShellLock.lock w.lock).2.1 })

/-- Drop a lock token held by a guard: apply `GlobalShellLock.drop` to the
world's thread lock state. -/
def dropTokenWorld (g : GlobalShellLock) (w : World) : World :=
  { w with lock := (GlobalShellLock.drop g w.lock).1 }

/-- The fatal outcomes of the guard destructors: `cwd().unwrap()` failing,
the `assert_eq!` consistency checks firing, and
`set_current_dir(..).unwrap()` failing on restore. -/
inductive Panic where
  | cwdReadFailed : Panic
  | dirChangedConcurrently : Panic
  | envChangedConcurrently : Panic
  | restoreFailed : Panic
deriving DecidableEq

/-- `struct Pushd`: the directory guard — its lock token, the working
directory read before the change (`prev_dir`), and the canonical
directory this guard set (`dir`, the re-read after the change). -/
structure Pushd where
  _guard : GlobalShellLock
  prev_dir : Path
  dir : Path
deriving DecidableEq

/-- `Pushd::new`: acquire the lock token; read the working directory
(`cwd()?`); change into `dir` (`set_current_dir(&dir)?`); re-read the
working directory to capture its canonical form (`cwd()?`).  Any `?`
failure returns the error to the caller, dropping the token normally. -/
def Pushd.new (res : Path → Path → Option Path) (dir : Path) (w : World) :
    Except Unit Pushd × World :=
  let g := (lockWorld w).1
  let w1 := (lockWorld w).2
  match cwdOp w1 with
  | (Except.error _, w2) => (Except.error (), dropTokenWorld g w2)
  | (Except.ok prev_dir, w2) =>
    match set_current_dir res dir w2 with
    | (Except.error _, w3) => (Except.error (), dropTokenWorld g w3)
    | (Except.ok _, w3) =>
      match cwdOp w3 with
      | (Except.error _, w4) => (Except.error (), dropTokenWorld g w4)
      | (Except.ok dir2, w4) =>
        (Except.ok { _guard := g, prev_dir := prev_dir, dir := dir2 }, w4)

/-- `Drop for Pushd`: read the working directory (`cwd().unwrap()` — a
read failure is a panic); `assert_eq!` it against the directory this
guard set (a mismatch is a panic); set the working directory back to
`prev_dir` (`unwrap()` — a restore failure is a panic); finally the
`_guard` field is dropped, releasing the lock token. -/
def Pushd.drop (res : Path → Path → Option Path) (p : Pushd) (w : World) :
    Except Panic World :=
  match cwdOp w with
  | (Except.error _, _) => Except.error Panic.cwdReadFailed
  | (Except.ok dir, w1) =>
    if dir = p.dir then
      match set_current_dir res p.prev_dir w1 with
      | (Except.error _, _) => Except.error Panic.restoreFailed
      | (Except.ok _, w2) => Except.ok (dropTokenWorld p._guard w2)
    else
      Except.error Panic.dirChangedConcurrently

/-- `struct Pushenv`: the environment guard — its lock token, the key, the
prior value (`None` when the variable was absent), and the value set. -/
structure Pushenv where
  _guard : GlobalShellLock
  key : String
  prev_value : Option String
  value : String
deriving DecidableEq

/-- `Pushenv::new`: acquire the lock token; record the variable's current
value (present or absent); set the variable.  Infallible: there is no
error channel. -/
def Pushenv.new (key value : String) (w : World) : Pushenv × World :=
  let g := (lockWorld w).1
  let w1 := (lockWorld w).2
  let prev_value := var_os key w1
  let w2 := set_var key value w1
  ({ _guard := g, key := key, prev_value := prev_value, value := value }, w2)

/-- `Drop for Pushenv`: read the variable; `assert_eq!` it against the
value this guard set (a mismatch is a panic); restore the prior value
(set it back if one was recorded, remove the variable if it was absent);
finally the `_guard` field is dropped, releasing the lock token. -/
def Pushenv.drop (p : Pushenv) (w : World) : Except Panic World :=
  let value := var_os p.key w
  if value = some p.value then
    Except.ok (dropTokenWorld p._guard
      (match p.prev_value with
       | some it => set_var p.key it w
       | none => remove_var p.key w))
  else
    Except.error Panic.envChangedConcurrently

/-- Scenario glue: open a directory guard and, if that succeeded,
immediately destroy it (no interleaving mutation of the world). -/
def pushdRoundTrip (res : Path → Path → Option Path) (dir : Path) (w : World) :
    Except Unit (Except Panic World) :=
  match Pushd.new res dir w with
  | (Except.error e, _) => Except.error e
  | (Except.ok p, w1) => Except.ok (Pushd.drop res p w1)

/-- Observer: the final working directory of a directory-guard round trip
that ran to completion without error or panic. -/
def roundTripCwd (res : Path → Path → Option Path) (dir : Path) (w : World) : Option Path :=
  match pushdRoundTrip res dir w with
  | Except.ok (Except.ok w2) => some w2.cwd
  | _ => none

/-- Observer: the working directory after a `Pushd` destructor that did
not panic. -/
def dropFinalCwd (res : Path → Path → Option Path) (p : Pushd) (w : World) : Option Path :=
  match Pushd.drop res p w with
  | Except.ok w2 => some w2.cwd
  | Except.error _ => none

/-- Scenario glue: open an environment guard and immediately destroy it
(no interleaving mutation of the world). -/
def pushenvRoundTrip (key value : String) (w : World) : Except Panic World :=
  Pushenv.drop (Pushenv.new key value w).1 (Pushenv.new key value w).2

/-- Observer: what variable `q` reads after an environment-guard round
trip that did not panic. -/
def roundTripEnv (key value : String) (w : World) (q : String) : Option (Option String) :=
  match pushenvRoundTrip key value w with
  | Except.ok w2 => some (w2.env q)
  | Except.error _ => none

namespace MT

/-- Multi-thread view of the global lock: which thread (if any) holds the
process-wide `MUTEX`, and each thread's thread-local `LOCKED` flag.
Threads are identified by naturals. -/
structure MTState where
  holder : Option Nat
  flags : Nat → Bool

/-- Pointwise update of the per-thread flag map (one thread writing its
own thread-local `LOCKED` cell). -/
def setFlag (t : Nat) (b : Bool) (f : Nat → Bool) : Nat → Bool :=
  fun q => if q = t then b else f q

/-- Process start: the mutex is unheld (lazily initialised on first use)
and every thread's `LOCKED` flag is `false`. -/
def start : MTState :=
  { holder := none, flags := fun _ => false }

/-- One completed lock operation by some thread `t`, as performed by
`GlobalShellLock::lock` and `Drop for GlobalShellLock`:

* `lockFast`: `t`'s flag is already set, so the acquire returns a token
  owning nothing and changes no shared state;
* `lockSlow`: `t`'s flag is clear and the mutex is free, so `t` obtains
  the mutex and sets its flag (a thread whose flag is clear while another
  thread holds the mutex has no enabled acquire step: it blocks);
* `unlockOwned`: the holder drops its owning token, clearing its flag and
  releasing the mutex;
* `dropNonOwning`: dropping a token that owns nothing changes nothing. -/
inductive Step : MTState → MTState → Prop where
  | lockFast (t : Nat) (s : MTState) :
      s.flags t = true → Step s s
  | lockSlow (t : Nat) (s : MTState) :
      s.flags t = false → s.holder = none →
      Step s { holder := some t, flags := setFlag t true s.flags }
  | unlockOwned (t : Nat) (s : MTState) :
      s.holder = some t →
      Step s { holder := none, flags := setFlag t false s.flags }
  | dropNonOwning (t : Nat) (s : MTState) :
      Step s s

/-- States reachable from process start by completed lock operations. -/
inductive Reachable : MTState → Prop where
  | start : Reachable start
  | step {s s' : MTState} : Reachable s → Step s s' → Reachable s'

/-- The lock invariant: whenever a thread's `LOCKED` flag is set, that
thread is the mutex holder.  In particular at most one flag is set. -/
def FlagImpliesHolder (s : MTState) : Prop :=
  ∀ t : Nat, s.flags t = true → s.holder = some t

theorem step_preserves_inv {s s' : MTState} (hs : FlagImpliesHolder s)
    (h : Step s s') : FlagImpliesHolder s' := by
  cases h with
  | lockFast t s ht => exact hs
  | lockSlow t s hf hn =>
      intro q hq
      by_cases hqt : q = t
      · simp [hqt]
      · exfalso
        have : s.flags q = true := by simpa [setFlag, hqt] using hq
        have := hs q this
        rw [hn] at this
        exact Option.noConfusion this
  | unlockOwned t s hh =>
      intro q hq
      by_cases hqt : q = t
      · exfalso
        simp [setFlag, hqt] at hq
      · exfalso
        have : s.flags q = true := by simpa [setFlag, hqt] using hq
        have hq' := hs q this
        rw [hh] at hq'
        exact hqt (Option.some.inj hq').symm
  | dropNonOwning t s => exact hs

theorem reachable_inv {s : MTState} (h : Reachable s) : FlagImpliesHolder s := by
  induction h with
  | start => intro t ht; simp [start] at ht
  | step _ hstep ih => exact step_preserves_inv ih hstep

end MT

/-! ## Theorems for the specification's claims -/

/-- Claim C3: for every key `K` and value `V`, after the environment guard
`Pushenv::new(K, V)` the variable `K` reads as `V`, and after the guard is
destroyed (with no external mutation in between) `K` reads as whatever it
read before: the recorded prior value is written back when one was
present, and `K` is removed when it was previously absent. -/
theorem pushenv_roundtrip_restores (k v : String) (w : World) :
    ((Pushenv.new k v w).2).env k = some v ∧
    roundTripEnv k v w k = some (w.env k) := by
  constructor
  · simp [Pushenv.new, set_var, var_os, lockWorld]
  · cases h : w.env k with
    | none =>
        simp [roundTripEnv, pushenvRoundTrip, Pushenv.new, Pushenv.drop, var_os,
          set_var, remove_var, lockWorld, dropTokenWorld, h]
    | some it =>
        simp [roundTripEnv, pushenvRoundTrip, Pushenv.new, Pushenv.drop, var_os,
          set_var, remove_var, lockWorld, dropTokenWorld, h]

/-- Claim C7: for every key and value, `Pushenv::new` never fails — its
result type has no error channel, and for every prior state of the
variable (present, present-and-empty, or absent) it returns a guard
recording the key, the value set, and the prior value, with the variable
now reading the new value. -/
theorem pushenv_new_never_fails (k v : String) (w : World) :
    (Pushenv.new k v w).1.key = k ∧
    (Pushenv.new k v w).1.value = v ∧
    (Pushenv.new k v w).1.prev_value = w.env k ∧
    ((Pushenv.new k v w).2).env k = some v := by
  refine ⟨rfl, rfl, ?_, ?_⟩ <;>
    simp [Pushenv.new, var_os, set_var, lockWorld]

/-- Claim C5: when the calling thread's `LOCKED` flag is already `true`,
`GlobalShellLock::lock` returns a token owning nothing, its event trace is
a single flag read — it never performs the (only potentially blocking)
mutex acquisition and leaves the lock state untouched — and a guard
created in such a state (e.g. a `Pushenv` nested inside another guard)
holds a token owning nothing, so nested guards on one thread cannot
deadlock. -/
theorem lock_reentrant_fast_path (s : LockState) (w : World) (k v : String)
    (h : s.locked = true) (hw : w.lock.locked = true) :
    ((GlobalShellLock.lock s).1).guard = false ∧
    (GlobalShellLock.lock s).2.1 = s ∧
    (GlobalShellLock.lock s).2.2 = [LockEvent.readFlag] ∧
    LockEvent.acquireMutex ∉ (GlobalShellLock.lock s).2.2 ∧
    ((Pushenv.new k v w).1)._guard.guard = false := by
  simp [GlobalShellLock.lock, h, Pushenv.new, lockWorld, hw]

/-- Witness for `lock_reentrant_fast_path` at a concrete locked state. -/
theorem lock_reentrant_fast_path_witness :
    (LockState.mk true true).locked = true ∧
    (({ cwd := "/a", env := fun _ => none, readFailAt := fun _ => false, reads := 0,
        lock := ⟨true, true⟩ } : World).lock.locked = true) ∧
    (((GlobalShellLock.lock ⟨true, true⟩).1).guard = false ∧
     (GlobalShellLock.lock ⟨true, true⟩).2.1 = ⟨true, true⟩ ∧
     (GlobalShellLock.lock ⟨true, true⟩).2.2 = [LockEvent.readFlag] ∧
     LockEvent.acquireMutex ∉ (GlobalShellLock.lock ⟨true, true⟩).2.2 ∧
     ((Pushenv.new "K" "V"
        { cwd := "/a", env := fun _ => none, readFailAt := fun _ => false, reads := 0,
          lock := ⟨true, true⟩ }).1)._guard.guard = false) :=
  ⟨rfl, rfl, lock_reentrant_fast_path ⟨true, true⟩ _ "K" "V" rfl rfl⟩

/-- Claim C6: destroying a token that owns the mutex hold emits exactly
the events flag-reset-then-mutex-release, in that order; after the flag
reset alone the mutex is still held; and the resulting state is the fold
of those events, ending with the mutex released. -/
theorem owning_token_drop_order (g : GlobalShellLock) (s : LockState)
    (hg : g.guard = true) (hm : s.mutexHeld = true) :
    (GlobalShellLock.drop g s).2 = [LockEvent.setFlag false, LockEvent.releaseMutex] ∧
    (LockEvent.apply (LockEvent.setFlag false) s).mutexHeld = true ∧
    (LockEvent.apply (LockEvent.setFlag false) s).locked = false ∧
    (GlobalShellLock.drop g s).1 =
      ((GlobalShellLock.drop g s).2).foldl (fun st e => LockEvent.apply e st) s ∧
    ((GlobalShellLock.drop g s).1).mutexHeld = false := by
  simp [GlobalShellLock.drop, hg, LockEvent.apply, hm]

/-- Witness for `owning_token_drop_order` at a concrete owning token. -/
theorem owning_token_drop_order_witness :
    (GlobalShellLock.mk true).guard = true ∧
    (LockState.mk true true).mutexHeld = true ∧
    ((GlobalShellLock.drop ⟨true⟩ ⟨true, true⟩).2 =
        [LockEvent.setFlag false, LockEvent.releaseMutex] ∧
     (LockEvent.apply (LockEvent.setFlag false) ⟨true, true⟩).mutexHeld = true ∧
     (LockEvent.apply (LockEvent.setFlag false) ⟨true, true⟩).locked = false ∧
     (GlobalShellLock.drop ⟨true⟩ ⟨true, true⟩).1 =
       ((GlobalShellLock.drop ⟨true⟩ ⟨true, true⟩).2).foldl
         (fun st e => LockEvent.apply e st) ⟨true, true⟩ ∧
     ((GlobalShellLock.drop ⟨true⟩ ⟨true, true⟩).1).mutexHeld = false) :=
  ⟨rfl, rfl, owning_token_drop_order ⟨true⟩ ⟨true, true⟩ rfl rfl⟩

/-- Claim C10: destroying a token that owns nothing (one returned by a
nested acquire on a thread whose flag was already `true`) performs no
events at all — it neither touches the flag (which stays `true`) nor the
mutex — so the outer session stays active until the owning token is
destroyed. -/
theorem nested_token_drop_noop (s : LockState) (h : s.locked = true) :
    ((GlobalShellLock.lock s).1).guard = false ∧
    GlobalShellLock.drop (GlobalShellLock.lock s).1 s = (s, []) ∧
    ((GlobalShellLock.drop (GlobalShellLock.lock s).1 s).1).locked = true := by
  simp [GlobalShellLock.lock, GlobalShellLock.drop, h]

/-- Witness for `nested_token_drop_noop` at a concrete locked state. -/
theorem nested_token_drop_noop_witness :
    (LockState.mk true true).locked = true ∧
    (((GlobalShellLock.lock ⟨true, true⟩).1).guard = false ∧
     GlobalShellLock.drop (GlobalShellLock.lock ⟨true, true⟩).1 ⟨true, true⟩ =
       (⟨true, true⟩, []) ∧
     ((GlobalShellLock.drop (GlobalShellLock.lock ⟨true, true⟩).1 ⟨true, true⟩).1).locked
       = true) :=
  ⟨rfl, nested_token_drop_noop ⟨true, true⟩ rfl⟩

/-- Claim C9: at `Pushd` destruction, a failure to read the current
working directory at all (before any comparison) is itself fatal: the
destructor panics (`cwd().unwrap()`), it neither skips validation nor
returns a recoverable error. -/
theorem pushd_drop_read_failure_panics (res : Path → Path → Option Path)
    (p : Pushd) (w : World) (hread : w.readFailAt w.reads = true) :
    Pushd.drop res p w = Except.error Panic.cwdReadFailed := by
  simp [Pushd.drop, cwdOp, hread]

/-- Witness for `pushd_drop_read_failure_panics` at a concrete world whose
working-directory read fails. -/
theorem pushd_drop_read_failure_panics_witness :
    ({ cwd := "/b", env := fun _ => none, readFailAt := fun _ => true, reads := 0,
       lock := ⟨true, true⟩ } : World).readFailAt 0 = true ∧
    Pushd.drop (fun _ _ => none) ⟨⟨true⟩, "/a", "/b"⟩
      { cwd := "/b", env := fun _ => none, readFailAt := fun _ => true, reads := 0,
        lock := ⟨true, true⟩ } = Except.error Panic.cwdReadFailed :=
  ⟨rfl, pushd_drop_read_failure_panics (fun _ _ => none) ⟨⟨true⟩, "/a", "/b"⟩ _ rfl⟩

/-- Claim C4: at `Pushd` destruction, when the read of the working
directory succeeds, the destructor panics with the concurrent-change
assertion exactly when the read value differs from the directory this
guard set; when it matches, it sets the working directory back to the
recorded prior value, and a failure of that restoration is also a panic
(on success the working directory becomes the restored directory). -/
theorem pushd_drop_consistency (res : Path → Path → Option Path)
    (p : Pushd) (w : World) (c : Path)
    (hread : w.readFailAt w.reads = false) :
    (Pushd.drop res p w = Except.error Panic.dirChangedConcurrently ↔ w.cwd ≠ p.dir) ∧
    (w.cwd = p.dir → res w.cwd p.prev_dir = none →
      Pushd.drop res p w = Except.error Panic.restoreFailed) ∧
    (w.cwd = p.dir → res w.cwd p.prev_dir = some c →
      dropFinalCwd res p w = some c) := by
  by_cases hcwd : w.cwd = p.dir
  · cases hres : res p.dir p.prev_dir with
    | none =>
        simp [Pushd.drop, dropFinalCwd, cwdOp, set_current_dir, hread, hcwd, hres]
    | some c' =>
        simp [Pushd.drop, dropFinalCwd, cwdOp, set_current_dir, dropTokenWorld,
          hread, hcwd, hres]
  · simp [Pushd.drop, dropFinalCwd, cwdOp, set_current_dir, hread, hcwd]

/-- Witness for `pushd_drop_consistency` at a concrete matching state with
a successful restore. -/
theorem pushd_drop_consistency_witness :
    ({ cwd := "/a/b", env := fun _ => none, readFailAt := fun _ => false, reads := 2,
       lock := ⟨true, true⟩ } : World).readFailAt 2 = false ∧
    ((Pushd.drop (fun _ t => some t) ⟨⟨true⟩, "/a", "/a/b"⟩
        { cwd := "/a/b", env := fun _ => none, readFailAt := fun _ => false, reads := 2,
          lock := ⟨true, true⟩ } = Except.error Panic.dirChangedConcurrently ↔
        ("/a/b" : Path) ≠ "/a/b") ∧
     (("/a/b" : Path) = "/a/b" → (fun (_ t : Path) => some t) "/a/b" "/a" = none →
        Pushd.drop (fun _ t => some t) ⟨⟨true⟩, "/a", "/a/b"⟩
          { cwd := "/a/b", env := fun _ => none, readFailAt := fun _ => false, reads := 2,
            lock := ⟨true, true⟩ } = Except.error Panic.restoreFailed) ∧
     (("/a/b" : Path) = "/a/b" → (fun (_ t : Path) => some t) "/a/b" "/a" = some "/a" →
        dropFinalCwd (fun _ t => some t) ⟨⟨true⟩, "/a", "/a/b"⟩
          { cwd := "/a/b", env := fun _ => none, readFailAt := fun _ => false, reads := 2,
            lock := ⟨true, true⟩ } = some "/a")) :=
  ⟨rfl, pushd_drop_consistency (fun _ t => some t) ⟨⟨true⟩, "/a", "/a/b"⟩ _ "/a" rfl⟩

/-- Claim C2: for a valid directory `d` (one the OS resolves to a
canonical directory `c`, with the recorded prior directory restorable
exactly), after `Pushd::new` succeeds the working directory is the
canonical form `c` of `d` and the guard records the prior directory; and
destroying the guard with no external mutation in between brings the
working directory back to the recorded prior value — a round trip. -/
theorem pushd_open_roundtrip (res : Path → Path → Option Path) (d c : Path) (w : World)
    (hr0 : w.readFailAt w.reads = false)
    (hr1 : w.readFailAt (w.reads + 1) = false)
    (hr2 : w.readFailAt (w.reads + 2) = false)
    (hres : res w.cwd d = some c)
    (hback : res c w.cwd = some w.cwd) :
    ((Pushd.new res d w).1.toOption.map fun p => p.prev_dir) = some w.cwd ∧
    ((Pushd.new res d w).1.toOption.map fun p => p.dir) = some c ∧
    ((Pushd.new res d w).2).cwd = c ∧
    roundTripCwd res d w = some w.cwd := by
  simp [Pushd.new, roundTripCwd, pushdRoundTrip, Pushd.drop, cwdOp, set_current_dir,
    lockWorld, dropTokenWorld, hr0, hr1, hr2, hres, hback, Except.toOption]

/-- Witness for `pushd_open_roundtrip` on the spec's scenario: working
directory `/a`, opening `/a/b` succeeds, destruction restores `/a`. -/
theorem pushd_open_roundtrip_witness :
    ({ cwd := "/a", env := fun _ => none, readFailAt := fun _ => false, reads := 0,
       lock := ⟨false, false⟩ } : World).readFailAt 0 = false ∧
    ({ cwd := "/a", env := fun _ => none, readFailAt := fun _ => false, reads := 0,
       lock := ⟨false, false⟩ } : World).readFailAt 1 = false ∧
    ({ cwd := "/a", env := fun _ => none, readFailAt := fun _ => false, reads := 0,
       lock := ⟨false, false⟩ } : World).readFailAt 2 = false ∧
    (fun (_ t : Path) => if t = "/a/b" then some "/a/b" else
        if t = "/a" then some "/a" else none) "/a" "/a/b" = some "/a/b" ∧
    (fun (_ t : Path) => if t = "/a/b" then some "/a/b" else
        if t = "/a" then some "/a" else none) "/a/b" "/a" = some "/a" ∧
    (((Pushd.new (fun _ t => if t = "/a/b" then some "/a/b" else
          if t = "/a" then some "/a" else none) "/a/b"
        { cwd := "/a", env := fun _ => none, readFailAt := fun _ => false, reads := 0,
          lock := ⟨false, false⟩ }).1.toOption.map fun p => p.prev_dir) = some "/a" ∧
     ((Pushd.new (fun _ t => if t = "/a/b" then some "/a/b" else
          if t = "/a" then some "/a" else none) "/a/b"
        { cwd := "/a", env := fun _ => none, readFailAt := fun _ => false, reads := 0,
          lock := ⟨false, false⟩ }).1.toOption.map fun p => p.dir) = some "/a/b" ∧
     ((Pushd.new (fun _ t => if t = "/a/b" then some "/a/b" else
          if t = "/a" then some "/a" else none) "/a/b"
        { cwd := "/a", env := fun _ => none, readFailAt := fun _ => false, reads := 0,
          lock := ⟨false, false⟩ }).2).cwd = "/a/b" ∧
     roundTripCwd (fun _ t => if t = "/a/b" then some "/a/b" else
          if t = "/a" then some "/a" else none) "/a/b"
        { cwd := "/a", env := fun _ => none, readFailAt := fun _ => false, reads := 0,
          lock := ⟨false, false⟩ } = some "/a") :=
  ⟨rfl, rfl, rfl, by decide, by decide,
    pushd_open_roundtrip _ "/a/b" "/a/b" _ rfl rfl rfl (by decide) (by decide)⟩

/-- Counterexample to claim C1 as stated: when the working-directory
change succeeds but the re-read of the working directory fails,
`Pushd::new` returns a recoverable error to the caller with the process's
working directory left changed (`/b`), not equal to its value before the
call (`/a`) — no guard exists, so nothing will restore it. -/
theorem pushd_new_reread_failure_mutates :
    (Pushd.new (fun _ t => some t) "/b"
        { cwd := "/a", env := fun _ => none, readFailAt := fun n => n == 1, reads := 0,
          lock := ⟨false, false⟩ }).1 = Except.error () ∧
    ((Pushd.new (fun _ t => some t) "/b"
        { cwd := "/a", env := fun _ => none, readFailAt := fun n => n == 1, reads := 0,
          lock := ⟨false, false⟩ }).2).cwd = "/b" ∧
    ({ cwd := "/a", env := fun _ => none, readFailAt := fun n => n == 1, reads := 0,
       lock := ⟨false, false⟩ } : World).cwd = "/a" ∧
    ("/b" : Path) ≠ "/a" := by
  exact ⟨rfl, rfl, rfl, by decide⟩

/-- Claim C1 (amended): if `Pushd::new` fails before mutating — the first
read of the working directory fails, or the change into the target is
refused — the working directory at the point the error is returned equals
its value before the call; but if the change succeeded and only the
re-read failed, the error is returned with the working directory left at
the resolved target directory (global state mutated). -/
theorem pushd_new_setup_failure_cwd (res : Path → Path → Option Path)
    (d : Path) (w : World) (c : Path) :
    (w.readFailAt w.reads = true →
      (Pushd.new res d w).1 = Except.error () ∧
      ((Pushd.new res d w).2).cwd = w.cwd) ∧
    (w.readFailAt w.reads = false → res w.cwd d = none →
      (Pushd.new res d w).1 = Except.error () ∧
      ((Pushd.new res d w).2).cwd = w.cwd) ∧
    (w.readFailAt w.reads = false → res w.cwd d = some c →
      w.readFailAt (w.reads + 1) = true →
      (Pushd.new res d w).1 = Except.error () ∧
      ((Pushd.new res d w).2).cwd = c) := by
  refine ⟨fun h0 => ?_, fun h0 h1 => ?_, fun h0 h1 h2 => ?_⟩ <;>
    simp [Pushd.new, cwdOp, set_current_dir, lockWorld, dropTokenWorld, h0]
  · simp [h1]
  · simp [h1, h2]

/-- Claim C8: in every state reachable from process start, the mutation
sessions of two distinct threads never overlap (at most one thread's
`LOCKED` flag is set), and while thread `a` holds the mutex no single
step can let a different thread `b` enter a session: `b`'s acquire stays
blocked until the owning token is destroyed. -/
theorem cross_thread_exclusion (s s' : MT.MTState) (a b : Nat)
    (hreach : MT.Reachable s) (hab : a ≠ b)
    (hhold : s.holder = some a) (hstep : MT.Step s s') :
    ¬ (s.flags a = true ∧ s.flags b = true) ∧
    (s.flags b = false → s'.flags b = false) := by
  constructor
  · rintro ⟨ha, hb⟩
    have inv := MT.reachable_inv hreach
    have h1 := inv a ha
    have h2 := inv b hb
    rw [h1] at h2
    exact hab (Option.some.inj h2)
  · intro hb
    cases hstep with
    | lockFast t s ht => exact hb
    | lockSlow t s hf hn =>
        rw [hhold] at hn
        exact Option.noConfusion hn
    | unlockOwned t s hh =>
        have hta : t = a := by
          rw [hhold] at hh
          exact (Option.some.inj hh).symm
        simp only [MT.setFlag]
        rw [if_neg]
        · exact hb
        · rw [hta]
          exact hab ∘ Eq.symm
    | dropNonOwning t s => exact hb

/-- Witness for `cross_thread_exclusion` at the reachable state where
thread `0` took the mutex from process start, with `b = 1` and a
reentrant step by thread `0`. -/
theorem cross_thread_exclusion_witness :
    ¬ ((MT.MTState.mk (some 0) (MT.setFlag 0 true MT.start.flags)).flags 0 = true ∧
       (MT.MTState.mk (some 0) (MT.setFlag 0 true MT.start.flags)).flags 1 = true) ∧
    ((MT.MTState.mk (some 0) (MT.setFlag 0 true MT.start.flags)).flags 1 = false →
     (MT.MTState.mk (some 0) (MT.setFlag 0 true MT.start.flags)).flags 1 = false) :=
  cross_thread_exclusion _ _ 0 1
    (MT.Reachable.step MT.Reachable.start (MT.Step.lockSlow 0 MT.start rfl rfl))
    (by decide) rfl
    (MT.Step.lockFast 0 (MT.MTState.mk (some 0) (MT.setFlag 0 true MT.start.flags)) rfl)

end XShell
